import Mathlib

/-!
Verification of the funnel curve-comparison core (`src/compare.c`).

The C doubles are modelled as rationals (`ℚ`); a `struct data` (a sampled
curve) becomes a pair of coordinate lists.  The orchestrator
`compareAndReport`, the allocation wrapper `newData` and the CSV writer
`writeToFile` are translated from `src/compare.c`.  The band-construction
and validation routines (`tubeSize`, `calculateLower`, `calculateUpper`,
`validate`) are declared in `compare.h` but their bodies are not part of
the visible source, so they are modelled from the specification, as noted
on each such definition.
-/

namespace Funnel

/-- The absolute comparison tolerance `1e-10` used by the `equ` macro
(compare.c line 5). -/
def tol10 : ℚ := 1 / 10000000000

/-- Translation of the `equ` macro (compare.c line 5):
`fabs(a - b) < 1e-10`, a strict comparison. -/
def equ (a b : ℚ) : Bool := decide (|a - b| < tol10)

/-- Translation of `struct data`: a sampled curve given by its coordinate
arrays.  The length of `x` plays the role of the field `n`. -/
structure Curve where
  x : List ℚ
  y : List ℚ
deriving DecidableEq, Repr

/-- Sample count of a curve (the `n` field of `struct data`). -/
def Curve.n (c : Curve) : ℕ := c.x.length

/-- The sample list of a curve, as `(x, y)` pairs. -/
def Curve.samples (c : Curve) : List (ℚ × ℚ) := c.x.zip c.y

/-- Translation of `struct tolerances` (compare.c lines 173-177). -/
structure Tolerances where
  atolx : ℚ
  atoly : ℚ
  rtolx : ℚ
  rtoly : ℚ
deriving DecidableEq, Repr

/-- Per-sample half-width of the tube: `wx(i) = atolx + rtolx * |x_ref(i)|`. -/
def wx (tol : Tolerances) (a : ℚ) : ℚ := tol.atolx + tol.rtolx * |a|

/-- Per-sample half-height of the tube: `wy(i) = atoly + rtoly * |y_ref(i)|`. -/
def wy (tol : Tolerances) (a : ℚ) : ℚ := tol.atoly + tol.rtoly * |a|

/-- Error kinds of the comparison run (spec section 7). -/
inductive CompErr where
  | emptyCurve
  | invalidTolerance
  | domainMismatch
  | bandCollapsed
  | mismatchedDomain
deriving DecidableEq, Repr

/-- Modelled from the spec: the body of `tubeSize` (declared in `compare.h`,
not under `src/`).  It returns the per-sample half-widths and half-heights
of the tolerance rectangle. -/
def tubeSize (ref : Curve) (tol : Tolerances) : List ℚ × List ℚ :=
  (ref.x.map (fun a => wx tol a), ref.y.map (fun a => wy tol a))

/-- Modelled from the spec: the body of `calculateLower` (declared in
`compare.h`, not under `src/`).  `lower.x(i) = x_ref(i) - wx(i)` and
`lower.y(i) = y_ref(i) - wy(i)`. -/
def calculateLower (ref : Curve) (tol : Tolerances) : Curve :=
  ⟨ref.x.map (fun a => a - wx tol a), ref.y.map (fun a => a - wy tol a)⟩

/-- Modelled from the spec: the body of `calculateUpper` (declared in
`compare.h`, not under `src/`).  `upper.x(i) = x_ref(i) + wx(i)` and
`upper.y(i) = y_ref(i) + wy(i)`. -/
def calculateUpper (ref : Curve) (tol : Tolerances) : Curve :=
  ⟨ref.x.map (fun a => a + wx tol a), ref.y.map (fun a => a + wy tol a)⟩

/-- Modelled from the spec: the `buildBand` contract of the TubeBuilder
(spec section 4.1), whose implementation (`tubeSize` plus the two curve
constructors) is not under `src/`.  Fails with `emptyCurve` on a
zero-length reference, with `invalidTolerance` when some half-width or
half-height is negative, and otherwise returns the lower and upper
bounding curves. -/
def buildBand (ref : Curve) (tol : Tolerances) : Except CompErr (Curve × Curve) :=
  if ref.n == 0 then .error .emptyCurve
  else if ref.x.all (fun a => decide (0 ≤ wx tol a)) &&
          ref.y.all (fun a => decide (0 ≤ wy tol a)) then
    .ok (calculateLower ref tol, calculateUpper ref tol)
  else .error .invalidTolerance

/-- Modelled from the spec: the bracketing-segment search of `validate`
(spec section 4.2), whose body is not under `src/`: the reference index `i`
with `x_ref(i) ≤ xt ≤ x_ref(i+1)`, i.e. the index of the last reference
sample at or before `xt`, clamped so that `i+1` is still a valid index. -/
def findBracket (xs : List ℚ) (xt : ℚ) : ℕ :=
  min ((xs.takeWhile (fun a => decide (a ≤ xt))).length - 1) (xs.length - 2)

/-- Modelled from the spec: the interpolation step of `validate`
(spec sections 4.2 and 9), whose body is not under `src/`.  The bound
`ys` is interpolated at `xt` using the fractional position of `xt`
between the reference abscissas at indices `i` and `i+1`. -/
def interpBound (refX ys : List ℚ) (i : ℕ) (xt : ℚ) : ℚ :=
  let x0 := refX.getD i 0
  let x1 := refX.getD (i + 1) 0
  let y0 := ys.getD i 0
  let y1 := ys.getD (i + 1) 0
  y0 + (xt - x0) / (x1 - x0) * (y1 - y0)

/-- Modelled from the spec: the per-sample classification of `validate`
(spec section 4.2), whose body is not under `src/`.  A sample is valid
when `interpLower ≤ yt ≤ interpUpper`, with equality judged by the same
`1e-10` absolute tolerance as domain alignment. -/
def sampleValid (lo hi yt : ℚ) : Bool :=
  (decide (lo ≤ yt) || equ lo yt) && (decide (yt ≤ hi) || equ yt hi)

/-- Modelled from the spec: the deviation recorded for a violating sample,
`yt - interpUpper` when the sample exceeds the upper bound and
`yt - interpLower` otherwise. -/
def signedDist (lo hi yt : ℚ) : ℚ := if hi < yt then yt - hi else yt - lo

/-- Modelled from the spec: the error report built by `validate`
(spec section 3): the violating original samples and the co-indexed
deviation curve. -/
structure ErrorReport where
  original : List (ℚ × ℚ)
  diff : List (ℚ × ℚ)
deriving DecidableEq, Repr

/-- Modelled from the spec: the sample-classification loop of `validate`
(spec section 4.2), whose body is not under `src/`.  Valid samples are
skipped; each violation appends `(xt, yt)` to `original` and
`(xt, signedDistance)` to `diff`. -/
def validateSamples (refX lowY upY : List ℚ) : List (ℚ × ℚ) → ErrorReport
  | [] => ⟨[], []⟩
  | (xt, yt) :: rest =>
    let r := validateSamples refX lowY upY rest
    let i := findBracket refX xt
    let lo := interpBound refX lowY i xt
    let hi := interpBound refX upY i xt
    if sampleValid lo hi yt then r
    else ⟨(xt, yt) :: r.original, (xt, signedDist lo hi yt) :: r.diff⟩

/-- Modelled from the spec: the violation predicate of `validate`
(spec section 4.2), whose body is not under `src/`: a test sample violates
the band when it fails `sampleValid` against the band values interpolated
at its abscissa. -/
def violates (refX lowY upY : List ℚ) (p : ℚ × ℚ) : Bool :=
  !(sampleValid (interpBound refX lowY (findBracket refX p.1) p.1)
                (interpBound refX upY (findBracket refX p.1) p.1) p.2)

/-- Modelled from the spec: the domain-coverage precondition of `validate`
(spec section 4.2), honoring the x half-width at the endpoints: the test
abscissas must start no earlier than `lower.x(0)` and end no later than
`upper.x(n-1)`. -/
def domainCovered (lower upper test : Curve) : Bool :=
  decide (lower.x.getD 0 0 ≤ test.x.getD 0 0) &&
  decide (test.x.getD (test.n - 1) 0 ≤ upper.x.getD (upper.n - 1) 0)

/-- Modelled from the spec: the `validate` function (declared in
`compare.h`, not under `src/`).  Following spec section 9, interpolation
is parameterized by the reference abscissas `refX`, which are monotone by
precondition, rather than by the possibly non-monotone bound abscissas. -/
def validate (refX : List ℚ) (lower upper test : Curve) : Except CompErr ErrorReport :=
  if lower.n == 0 || upper.n == 0 then .error .bandCollapsed
  else if domainCovered lower upper test then
    .ok (validateSamples refX lower.y upper.y test.samples)
  else .error .mismatchedDomain

/-- Translation of `compareAndReport` (compare.c lines 142-233), with the
file-system side effects elided: the two `equ` endpoint checks (lines
162-171), the band construction (lines 180-184), the collapsed-band check
(lines 187-191) and the call to `validate` (line 194).  A `1`/non-zero
`retVal` with its log message becomes the corresponding `CompErr`. -/
def compareAndReport (ref test : Curve) (tol : Tolerances) : Except CompErr ErrorReport :=
  if equ (ref.x.getD 0 0) (test.x.getD 0 0) then
    if equ (ref.x.getD (ref.n - 1) 0) (test.x.getD (test.n - 1) 0) then
      let lower := calculateLower ref tol
      let upper := calculateUpper ref tol
      if lower.n == 0 || upper.n == 0 then .error .bandCollapsed
      else validate ref.x lower upper test
    else .error .domainMismatch
  else .error .domainMismatch

/-- Translation of `newData` (compare.c lines 92-125): copies the input
arrays into a fresh curve, returning `none` (the C `NULL`) when the
allocation fails.  The allocation outcome is an explicit parameter. -/
def newData (alloc : Bool) (c : Curve) : Option Curve :=
  if alloc then some c else none

/-- Translation of the entry sequence of `compareAndReport` (compare.c
lines 159-162) together with its allocation outcomes: the source calls
`newData` for the reference and the test curve and then immediately reads
`baseCSV->x[0]` and `testCSV->x[0]` without checking either result for
`NULL`, so a failed allocation leads to a `NULL`-pointer dereference.
`none` models that dereference (no integer status is ever returned). -/
def compareAndReportAlloc (aRef aTest : Bool) (ref test : Curve)
    (tol : Tolerances) : Option (Except CompErr ErrorReport) :=
  match newData aRef ref, newData aTest test with
  | some b, some t => some (compareAndReport b t tol)
  | _, _ => none

/-- The numeric value denoted by the `%lf` output of `fprintf`
(compare.c line 72): the argument rounded to six fractional decimal
digits (the default precision of `%lf`). -/
def fmtLf (q : ℚ) : ℚ := round (q * 1000000) / 1000000

/-- A CSV artifact: the header line and the numeric values of the data
rows. -/
structure CSVFile where
  header : String
  rows : List (ℚ × ℚ)
deriving DecidableEq, Repr

/-- Translation of the output of `writeToFile` (compare.c lines 70-73),
with the path handling and I/O elided: the header line `x,y` followed by
one `%lf,%lf` row per sample. -/
def writeToFile (d : Curve) : CSVFile :=
  ⟨"x,y", d.samples.map (fun p => (fmtLf p.1, fmtLf p.2))⟩

end Funnel

/-! ## Helper lemmas -/

namespace Funnel

lemma tol10_pos : 0 < tol10 := by norm_num [tol10]

lemma equ_eq_true_iff (a b : ℚ) : equ a b = true ↔ |a - b| < tol10 := by
  simp [equ]

lemma equ_eq_false_iff (a b : ℚ) : equ a b = false ↔ tol10 ≤ |a - b| := by
  simp [equ, not_lt]

lemma equ_self (a : ℚ) : equ a a = true := by
  simp [equ, sub_self, abs_zero, tol10_pos]

lemma sampleValid_eq_true_iff (lo hi yt : ℚ) :
    sampleValid lo hi yt = true
      ↔ ((lo ≤ yt ∨ |lo - yt| < tol10) ∧ (yt ≤ hi ∨ |yt - hi| < tol10)) := by
  simp [sampleValid, equ]

lemma validateSamples_original (refX lowY upY : List ℚ) (L : List (ℚ × ℚ)) :
    (validateSamples refX lowY upY L).original = L.filter (violates refX lowY upY) := by
  induction L with
  | nil => rfl
  | cons p t ih =>
    rcases p with ⟨xt, yt⟩
    by_cases h : sampleValid (interpBound refX lowY (findBracket refX xt) xt)
        (interpBound refX upY (findBracket refX xt) xt) yt = true
    · simp [validateSamples, h, List.filter, violates, ih]
    · simp [validateSamples, h, List.filter, violates, ih,
        Bool.not_eq_true _ ▸ h]

lemma validateSamples_diff (refX lowY upY : List ℚ) (L : List (ℚ × ℚ)) :
    (validateSamples refX lowY upY L).diff
      = (L.filter (violates refX lowY upY)).map (fun p =>
          (p.1, signedDist (interpBound refX lowY (findBracket refX p.1) p.1)
                           (interpBound refX upY (findBracket refX p.1) p.1) p.2)) := by
  induction L with
  | nil => rfl
  | cons p t ih =>
    rcases p with ⟨xt, yt⟩
    by_cases h : sampleValid (interpBound refX lowY (findBracket refX xt) xt)
        (interpBound refX upY (findBracket refX xt) xt) yt = true
    · simp [validateSamples, h, List.filter, violates, ih]
    · simp [validateSamples, h, List.filter, violates, ih]

end Funnel

namespace Funnel

lemma wy_mono (t1 t2 : Tolerances) (hb : t1.atoly ≤ t2.atoly) (hd : t1.rtoly ≤ t2.rtoly)
    (a : ℚ) : wy t1 a ≤ wy t2 a :=
  add_le_add hb (mul_le_mul_of_nonneg_right hd (abs_nonneg a))

lemma map_sub_wy_getD_le (l : List ℚ) (t1 t2 : Tolerances)
    (hb : t1.atoly ≤ t2.atoly) (hd : t1.rtoly ≤ t2.rtoly) (i : ℕ) :
    (l.map (fun a => a - wy t2 a)).getD i 0 ≤ (l.map (fun a => a - wy t1 a)).getD i 0 := by
  rcases lt_or_le i l.length with h | h
  · rw [List.getD_eq_getElem _ _ (by simpa using h), List.getD_eq_getElem _ _ (by simpa using h),
      List.getElem_map, List.getElem_map]
    exact sub_le_sub_left (wy_mono t1 t2 hb hd _) _
  · rw [List.getD_eq_default _ _ (by simpa using h), List.getD_eq_default _ _ (by simpa using h)]

lemma map_add_wy_getD_le (l : List ℚ) (t1 t2 : Tolerances)
    (hb : t1.atoly ≤ t2.atoly) (hd : t1.rtoly ≤ t2.rtoly) (i : ℕ) :
    (l.map (fun a => a + wy t1 a)).getD i 0 ≤ (l.map (fun a => a + wy t2 a)).getD i 0 := by
  rcases lt_or_le i l.length with h | h
  · rw [List.getD_eq_getElem _ _ (by simpa using h), List.getD_eq_getElem _ _ (by simpa using h),
      List.getElem_map, List.getElem_map]
    exact add_le_add_left (wy_mono t1 t2 hb hd _) _
  · rw [List.getD_eq_default _ _ (by simpa using h), List.getD_eq_default _ _ (by simpa using h)]

lemma interp_mono (x0 x1 xt a1 b1 a2 b2 : ℚ) (h0 : x0 ≤ xt) (h1 : xt ≤ x1)
    (ha : a2 ≤ a1) (hb : b2 ≤ b1) :
    a2 + (xt - x0) / (x1 - x0) * (b2 - a2) ≤ a1 + (xt - x0) / (x1 - x0) * (b1 - a1) := by
  rcases eq_or_lt_of_le (le_trans h0 h1) with heq | hlt
  · have hx : xt = x0 := le_antisymm (heq ▸ h1) h0
    rw [hx, ← heq, sub_self, zero_div, zero_mul, zero_mul, add_zero, add_zero]
    exact ha
  · have hl0 : 0 ≤ (xt - x0) / (x1 - x0) := div_nonneg (by linarith) (by linarith)
    have hl1 : (xt - x0) / (x1 - x0) ≤ 1 := (div_le_one (by linarith)).2 (by linarith)
    nlinarith [mul_nonneg (sub_nonneg.2 hl1) (sub_nonneg.2 ha),
      mul_nonneg hl0 (sub_nonneg.2 hb)]

lemma interpBound_lower_mono (refX l : List ℚ) (t1 t2 : Tolerances)
    (hb : t1.atoly ≤ t2.atoly) (hd : t1.rtoly ≤ t2.rtoly) (i : ℕ) (xt : ℚ)
    (h0 : refX.getD i 0 ≤ xt) (h1 : xt ≤ refX.getD (i + 1) 0) :
    interpBound refX (l.map (fun a => a - wy t2 a)) i xt
      ≤ interpBound refX (l.map (fun a => a - wy t1 a)) i xt := by
  simp only [interpBound]
  exact interp_mono _ _ _ _ _ _ _ h0 h1
    (map_sub_wy_getD_le l t1 t2 hb hd i) (map_sub_wy_getD_le l t1 t2 hb hd (i + 1))

lemma interpBound_upper_mono (refX l : List ℚ) (t1 t2 : Tolerances)
    (hb : t1.atoly ≤ t2.atoly) (hd : t1.rtoly ≤ t2.rtoly) (i : ℕ) (xt : ℚ)
    (h0 : refX.getD i 0 ≤ xt) (h1 : xt ≤ refX.getD (i + 1) 0) :
    interpBound refX (l.map (fun a => a + wy t1 a)) i xt
      ≤ interpBound refX (l.map (fun a => a + wy t2 a)) i xt := by
  simp only [interpBound]
  exact interp_mono _ _ _ _ _ _ _ h0 h1
    (map_add_wy_getD_le l t1 t2 hb hd i) (map_add_wy_getD_le l t1 t2 hb hd (i + 1))

lemma valid_lower_mono (lo lo2 yt : ℚ) (h : lo2 ≤ lo)
    (hv : lo ≤ yt ∨ |lo - yt| < tol10) : lo2 ≤ yt ∨ |lo2 - yt| < tol10 := by
  rcases le_or_lt lo2 yt with h1 | h1
  · exact Or.inl h1
  · right
    rcases hv with h2 | h2
    · linarith
    · rw [abs_sub_lt_iff] at h2 ⊢
      constructor <;> linarith [h2.1, h2.2, tol10_pos]

lemma valid_upper_mono (hi hi2 yt : ℚ) (h : hi ≤ hi2)
    (hv : yt ≤ hi ∨ |yt - hi| < tol10) : yt ≤ hi2 ∨ |yt - hi2| < tol10 := by
  rcases le_or_lt yt hi2 with h1 | h1
  · exact Or.inl h1
  · right
    rcases hv with h2 | h2
    · linarith
    · rw [abs_sub_lt_iff] at h2 ⊢
      constructor <;> linarith [h2.1, h2.2, tol10_pos]

end Funnel

namespace Funnel

lemma pairwise_getD_lt (xs : List ℚ) (hs : xs.Pairwise (· < ·)) {i j : ℕ}
    (hij : i < j) (hj : j < xs.length) : xs.getD i 0 < xs.getD j 0 := by
  rw [List.getD_eq_getElem _ _ (lt_trans hij hj), List.getD_eq_getElem _ _ hj]
  exact List.pairwise_iff_getElem.1 hs i j (lt_trans hij hj) hj hij

lemma takeWhile_sorted_length (xs : List ℚ) (hs : xs.Pairwise (· < ·)) (j : ℕ)
    (hj : j < xs.length) :
    (xs.takeWhile (fun a => decide (a ≤ xs.getD j 0))).length = j + 1 := by
  induction xs generalizing j with
  | nil => simp at hj
  | cons a t ih =>
    rcases List.pairwise_cons.1 hs with ⟨hall, htail⟩
    cases j with
    | zero =>
      have hgd : (a :: t).getD 0 0 = a := rfl
      rw [hgd]
      cases t with
      | nil => simp
      | cons b t2 =>
        have hb : ¬ (b ≤ a) := not_le.2 (hall b (by simp))
        simp [List.takeWhile_cons, hb]
    | succ k =>
      have hk : k < t.length := by simpa using hj
      have hgd : (a :: t).getD (k + 1) 0 = t.getD k 0 := rfl
      rw [hgd]
      have hc : t.getD k 0 ∈ t := by
        rw [List.getD_eq_getElem _ _ hk]
        exact List.getElem_mem hk
      have ha : a ≤ t.getD k 0 := le_of_lt (hall _ hc)
      simp only [List.takeWhile_cons]
      rw [if_pos (decide_eq_true ha), List.length_cons, ih htail k hk]

lemma findBracket_getD (xs : List ℚ) (hs : xs.Pairwise (· < ·)) (j : ℕ)
    (hj : j < xs.length) :
    findBracket xs (xs.getD j 0) = min j (xs.length - 2) := by
  unfold findBracket
  rw [takeWhile_sorted_length xs hs j hj]
  simp

lemma interp_getD_self (xs ys : List ℚ) (hs : xs.Pairwise (· < ·)) (j : ℕ)
    (hj : j < xs.length) :
    interpBound xs ys (findBracket xs (xs.getD j 0)) (xs.getD j 0) = ys.getD j 0 := by
  rw [findBracket_getD xs hs j hj]
  rcases le_or_lt j (xs.length - 2) with hc | hc
  · rw [min_eq_left hc]
    simp [interpBound, sub_self]
  · have hlen2 : 2 ≤ xs.length := by omega
    have hj' : j = xs.length - 1 := by omega
    rw [min_eq_right (le_of_lt hc)]
    have h1 : xs.length - 2 + 1 = j := by omega
    have hx01 : xs.getD (xs.length - 2) 0 < xs.getD j 0 :=
      pairwise_getD_lt xs hs (by omega) (by omega)
    simp only [interpBound, h1]
    rw [div_self (sub_ne_zero.2 (ne_of_gt hx01))]
    ring

lemma mem_zip_getD (xs ys : List ℚ) (p : ℚ × ℚ) (h : p ∈ xs.zip ys) :
    ∃ j, j < xs.length ∧ j < ys.length ∧ p.1 = xs.getD j 0 ∧ p.2 = ys.getD j 0 := by
  rw [List.mem_iff_get] at h
  obtain ⟨⟨k, hk⟩, hget⟩ := h
  have hk2 : k < xs.length ∧ k < ys.length := by
    rw [List.length_zip] at hk
    exact ⟨lt_of_lt_of_le hk (min_le_left _ _), lt_of_lt_of_le hk (min_le_right _ _)⟩
  refine ⟨k, hk2.1, hk2.2, ?_, ?_⟩
  · rw [List.getD_eq_getElem _ _ hk2.1, ← hget]
    simp [List.get_eq_getElem, List.getElem_zip]
  · rw [List.getD_eq_getElem _ _ hk2.2, ← hget]
    simp [List.get_eq_getElem, List.getElem_zip]

lemma calculateLower_zero (ref : Curve) : calculateLower ref ⟨0, 0, 0, 0⟩ = ref := by
  cases ref with
  | mk xs ys => simp [calculateLower, wx, wy]

lemma calculateUpper_zero (ref : Curve) : calculateUpper ref ⟨0, 0, 0, 0⟩ = ref := by
  cases ref with
  | mk xs ys => simp [calculateUpper, wx, wy]

end Funnel

namespace Funnel

/-- C1: for a reference curve with at least one sample and non-negative
tolerance values, `buildBand` succeeds, the lower and upper curves have the
reference's sample count, and pointwise `lower = ref ∓ w`, `upper = ref ± w`
with `wx(i) = atolx + rtolx * |x_ref(i)|` and `wy(i) = atoly + rtoly * |y_ref(i)|`. -/
theorem buildBand_pointwise (ref : Curve) (tol : Tolerances)
    (hn : 1 ≤ ref.n)
    (h1 : 0 ≤ tol.atolx) (h2 : 0 ≤ tol.atoly) (h3 : 0 ≤ tol.rtolx) (h4 : 0 ≤ tol.rtoly) :
    buildBand ref tol = Except.ok (calculateLower ref tol, calculateUpper ref tol)
    ∧ (calculateLower ref tol).n = ref.n
    ∧ (calculateUpper ref tol).n = ref.n
    ∧ (calculateLower ref tol).y.length = ref.y.length
    ∧ (calculateUpper ref tol).y.length = ref.y.length
    ∧ (∀ i, i < ref.n →
        (calculateLower ref tol).x.getD i 0
            = ref.x.getD i 0 - (tol.atolx + tol.rtolx * |ref.x.getD i 0|)
        ∧ (calculateUpper ref tol).x.getD i 0
            = ref.x.getD i 0 + (tol.atolx + tol.rtolx * |ref.x.getD i 0|))
    ∧ (∀ i, i < ref.y.length →
        (calculateLower ref tol).y.getD i 0
            = ref.y.getD i 0 - (tol.atoly + tol.rtoly * |ref.y.getD i 0|)
        ∧ (calculateUpper ref tol).y.getD i 0
            = ref.y.getD i 0 + (tol.atoly + tol.rtoly * |ref.y.getD i 0|)) := by
  have hne : (ref.n == 0) = false := by
    simp only [beq_eq_false_iff_ne, ne_eq]
    omega
  have hx : ref.x.all (fun a => decide (0 ≤ wx tol a)) = true := by
    rw [List.all_eq_true]
    intro a _
    exact decide_eq_true (add_nonneg h1 (mul_nonneg h3 (abs_nonneg a)))
  have hy : ref.y.all (fun a => decide (0 ≤ wy tol a)) = true := by
    rw [List.all_eq_true]
    intro a _
    exact decide_eq_true (add_nonneg h2 (mul_nonneg h4 (abs_nonneg a)))
  refine ⟨by simp [buildBand, hne, hx, hy], by simp [calculateLower, Curve.n],
    by simp [calculateUpper, Curve.n], by simp [calculateLower], by simp [calculateUpper],
    ?_, ?_⟩
  · intro i hi
    have hix : i < ref.x.length := hi
    constructor
    · rw [show (calculateLower ref tol).x = ref.x.map (fun a => a - wx tol a) from rfl,
        List.getD_eq_getElem _ _ (by simpa using hix), List.getD_eq_getElem _ _ hix,
        List.getElem_map]
      rfl
    · rw [show (calculateUpper ref tol).x = ref.x.map (fun a => a + wx tol a) from rfl,
        List.getD_eq_getElem _ _ (by simpa using hix), List.getD_eq_getElem _ _ hix,
        List.getElem_map]
      rfl
  · intro i hiy
    constructor
    · rw [show (calculateLower ref tol).y = ref.y.map (fun a => a - wy tol a) from rfl,
        List.getD_eq_getElem _ _ (by simpa using hiy), List.getD_eq_getElem _ _ hiy,
        List.getElem_map]
      rfl
    · rw [show (calculateUpper ref tol).y = ref.y.map (fun a => a + wy tol a) from rfl,
        List.getD_eq_getElem _ _ (by simpa using hiy), List.getD_eq_getElem _ _ hiy,
        List.getElem_map]
      rfl

/-- Witness for C1 at a concrete curve and tolerance. -/
theorem buildBand_pointwise_witness :
    buildBand ⟨[0, 1], [1, -2]⟩ ⟨1, 2, 3, 4⟩
      = Except.ok (calculateLower ⟨[0, 1], [1, -2]⟩ ⟨1, 2, 3, 4⟩,
                   calculateUpper ⟨[0, 1], [1, -2]⟩ ⟨1, 2, 3, 4⟩) :=
  (buildBand_pointwise ⟨[0, 1], [1, -2]⟩ ⟨1, 2, 3, 4⟩ (by norm_num [Curve.n])
    (by norm_num) (by norm_num) (by norm_num) (by norm_num)).1

/-- C3: when the first or last reference and test x-values differ by more
than the absolute tolerance `1e-10`, `compareAndReport` fails with a
domain mismatch before any band is built or interpolation attempted. -/
theorem endpoint_mismatch_strict (ref test : Curve) (tol : Tolerances)
    (h : tol10 < |ref.x.getD 0 0 - test.x.getD 0 0|
       ∨ tol10 < |ref.x.getD (ref.n - 1) 0 - test.x.getD (test.n - 1) 0|) :
    compareAndReport ref test tol = Except.error CompErr.domainMismatch := by
  unfold compareAndReport
  cases hE1 : equ (ref.x.getD 0 0) (test.x.getD 0 0) with
  | false => simp [hE1]
  | true =>
    rcases h with h | h
    · rw [equ_eq_true_iff] at hE1
      linarith
    · have hE2 : equ (ref.x.getD (ref.n - 1) 0) (test.x.getD (test.n - 1) 0) = false :=
        (equ_eq_false_iff _ _).2 (le_of_lt h)
      rw [hE2, if_pos rfl, if_neg Bool.false_ne_true]

/-- Witness for C3 at endpoint difference 1. -/
theorem endpoint_mismatch_strict_witness :
    compareAndReport ⟨[0], [0]⟩ ⟨[1], [0]⟩ ⟨0, 0, 0, 0⟩
      = Except.error CompErr.domainMismatch :=
  endpoint_mismatch_strict ⟨[0], [0]⟩ ⟨[1], [0]⟩ ⟨0, 0, 0, 0⟩
    (Or.inl (by norm_num [tol10]))

/-- C10: the `equ` endpoint test is a strict `< 1e-10` comparison, so a
first- or last-x difference of exactly `1e-10` (or more) is rejected with a
domain mismatch and a non-zero status. -/
theorem endpoint_mismatch_at_tolerance (ref test : Curve) (tol : Tolerances)
    (h : tol10 ≤ |ref.x.getD 0 0 - test.x.getD 0 0|
       ∨ tol10 ≤ |ref.x.getD (ref.n - 1) 0 - test.x.getD (test.n - 1) 0|) :
    compareAndReport ref test tol = Except.error CompErr.domainMismatch := by
  unfold compareAndReport
  cases hE1 : equ (ref.x.getD 0 0) (test.x.getD 0 0) with
  | false => simp [hE1]
  | true =>
    rcases h with h | h
    · rw [equ_eq_true_iff] at hE1
      linarith
    · have hE2 : equ (ref.x.getD (ref.n - 1) 0) (test.x.getD (test.n - 1) 0) = false :=
        (equ_eq_false_iff _ _).2 h
      rw [hE2, if_pos rfl, if_neg Bool.false_ne_true]

/-- Witness for C10 at an endpoint difference of exactly `1e-10`. -/
theorem endpoint_mismatch_at_tolerance_witness :
    compareAndReport ⟨[0], [0]⟩ ⟨[tol10], [0]⟩ ⟨0, 0, 0, 0⟩
      = Except.error CompErr.domainMismatch :=
  endpoint_mismatch_at_tolerance ⟨[0], [0]⟩ ⟨[tol10], [0]⟩ ⟨0, 0, 0, 0⟩
    (Or.inl (by simp [zero_sub, abs_neg, abs_of_pos tol10_pos]))

/-- C6: for an empty reference curve, `compareAndReport` fails with a
non-zero status before validation; `buildBand` fails with `emptyCurve` on a
zero-length reference, and `validate` fails with `bandCollapsed` when the
lower or upper curve has zero samples. -/
theorem empty_reference_fails (ref test : Curve) (tol : Tolerances)
    (refX : List ℚ) (lower upper : Curve)
    (h : ref.n = 0) (hband : lower.n = 0 ∨ upper.n = 0) :
    (∃ e, compareAndReport ref test tol = Except.error e)
    ∧ buildBand ref tol = Except.error CompErr.emptyCurve
    ∧ validate refX lower upper test = Except.error CompErr.bandCollapsed := by
  refine ⟨?_, by simp [buildBand, h], ?_⟩
  · unfold compareAndReport
    cases hE1 : equ (ref.x.getD 0 0) (test.x.getD 0 0) with
    | false => exact ⟨CompErr.domainMismatch, by simp [hE1]⟩
    | true =>
      cases hE2 : equ (ref.x.getD (ref.n - 1) 0) (test.x.getD (test.n - 1) 0) with
      | false => exact ⟨CompErr.domainMismatch, by simp [hE1, hE2]⟩
      | true =>
        have hl : (calculateLower ref tol).n = 0 := by
          simpa [calculateLower, Curve.n] using h
        exact ⟨CompErr.bandCollapsed, by simp [hE1, hE2, hl]⟩
  · rcases hband with h1 | h1 <;> simp [validate, h1]

/-- Witness for C6 at concrete empty curves. -/
theorem empty_reference_fails_witness :
    (∃ e, compareAndReport ⟨[], []⟩ ⟨[1], [1]⟩ ⟨0, 0, 0, 0⟩ = Except.error e)
    ∧ buildBand ⟨[], []⟩ ⟨0, 0, 0, 0⟩ = Except.error CompErr.emptyCurve
    ∧ validate [] ⟨[], []⟩ ⟨[0], [0]⟩ ⟨[1], [1]⟩ = Except.error CompErr.bandCollapsed :=
  empty_reference_fails ⟨[], []⟩ ⟨[1], [1]⟩ ⟨0, 0, 0, 0⟩ [] ⟨[], []⟩ ⟨[0], [0]⟩
    rfl (Or.inl rfl)

/-- C7 (failing input): when `newData` reports an allocation failure for
the reference or the test curve, the modelled entry sequence of
`compareAndReport` dereferences the null result instead of returning an
integer status. -/
theorem newData_null_deref :
    compareAndReportAlloc false true ⟨[0], [0]⟩ ⟨[0], [0]⟩ ⟨0, 0, 0, 0⟩ = none
    ∧ compareAndReportAlloc true false ⟨[0], [0]⟩ ⟨[0], [0]⟩ ⟨0, 0, 0, 0⟩ = none :=
  ⟨rfl, rfl⟩

/-- C9: `buildBand` is a function of its inputs alone: two runs on equal
(reference, tolerance) pairs return equal bounding curves. -/
theorem buildBand_deterministic (r1 r2 : Curve) (t1 t2 : Tolerances)
    (h1 : r1 = r2) (h2 : t1 = t2) : buildBand r1 t1 = buildBand r2 t2 := by
  rw [h1, h2]

/-- Witness for C9: two runs on the same concrete pair agree. -/
theorem buildBand_deterministic_witness :
    buildBand ⟨[0], [0]⟩ ⟨0, 0, 0, 0⟩ = buildBand ⟨[0], [0]⟩ ⟨0, 0, 0, 0⟩ :=
  buildBand_deterministic ⟨[0], [0]⟩ ⟨[0], [0]⟩ ⟨0, 0, 0, 0⟩ ⟨0, 0, 0, 0⟩ rfl rfl

end Funnel

namespace Funnel

/-- C2: inside the band's domain, `validate` succeeds and classifies each
test sample as valid exactly when the interpolated lower bound is at or
below its ordinate and the ordinate is at or below the interpolated upper
bound, equality judged with the `1e-10` absolute tolerance; every other
sample is appended to `original` with `(xt, signedDistance)` appended to
`diff`, `signedDistance` being `yt - interpUpper` above the band and
`yt - interpLower` otherwise; overall validity holds exactly when
`original` is empty. -/
theorem validate_classification (refX : List ℚ) (lower upper test : Curve)
    (h1 : lower.n ≠ 0) (h2 : upper.n ≠ 0)
    (h3 : domainCovered lower upper test = true) :
    validate refX lower upper test
        = Except.ok (validateSamples refX lower.y upper.y test.samples)
    ∧ (validateSamples refX lower.y upper.y test.samples).original
        = test.samples.filter (violates refX lower.y upper.y)
    ∧ (validateSamples refX lower.y upper.y test.samples).diff
        = (test.samples.filter (violates refX lower.y upper.y)).map (fun p =>
            (p.1,
              if interpBound refX upper.y (findBracket refX p.1) p.1 < p.2 then
                p.2 - interpBound refX upper.y (findBracket refX p.1) p.1
              else
                p.2 - interpBound refX lower.y (findBracket refX p.1) p.1))
    ∧ (∀ p : ℚ × ℚ, violates refX lower.y upper.y p = false
        ↔ ((interpBound refX lower.y (findBracket refX p.1) p.1 ≤ p.2
              ∨ |interpBound refX lower.y (findBracket refX p.1) p.1 - p.2| < tol10)
           ∧ (p.2 ≤ interpBound refX upper.y (findBracket refX p.1) p.1
              ∨ |p.2 - interpBound refX upper.y (findBracket refX p.1) p.1| < tol10)))
    ∧ ((validateSamples refX lower.y upper.y test.samples).original = []
        ↔ ∀ p ∈ test.samples, violates refX lower.y upper.y p = false) := by
  refine ⟨?_, validateSamples_original refX lower.y upper.y test.samples,
    validateSamples_diff refX lower.y upper.y test.samples, ?_, ?_⟩
  · have hb : (lower.n == 0 || upper.n == 0) = false := by
      simp [h1, h2]
    rw [validate, hb, if_neg Bool.false_ne_true, h3, if_pos rfl]
  · intro p
    simp [violates, sampleValid_eq_true_iff]
  · rw [validateSamples_original, List.filter_eq_nil_iff]
    constructor
    · intro hall p hp
      have := hall p hp
      simpa [Bool.not_eq_true] using this
    · intro hall p hp
      simp [hall p hp]

/-- Witness for C2 at a concrete band and test curve. -/
theorem validate_classification_witness :
    validate [0, 1] ⟨[0, 1], [0, 0]⟩ ⟨[0, 1], [1, 1]⟩ ⟨[0, 1], [0, 2]⟩
      = Except.ok (validateSamples [0, 1] [0, 0] [1, 1]
          (Curve.samples ⟨[0, 1], [0, 2]⟩)) :=
  (validate_classification [0, 1] ⟨[0, 1], [0, 0]⟩ ⟨[0, 1], [1, 1]⟩ ⟨[0, 1], [0, 2]⟩
    (by norm_num [Curve.n]) (by norm_num [Curve.n])
    (by norm_num [domainCovered, Curve.n])).1

/-- C5 (amended): for samples inside the reference x-range, widening every
tolerance component can only turn violations into passes: a test sample
whose abscissa is bracketed by its reference segment
(`x_ref(i) ≤ xt ≤ x_ref(i+1)`) and that is valid under the narrower
tolerances stays valid under the wider ones.  Outside the reference
x-range the bounds are extrapolated and this monotonicity fails. -/
theorem tolerance_widening_monotone (ref : Curve) (t1 t2 : Tolerances) (xt yt : ℚ)
    (_h1 : t1.atolx ≤ t2.atolx) (h2 : t1.atoly ≤ t2.atoly)
    (_h3 : t1.rtolx ≤ t2.rtolx) (h4 : t1.rtoly ≤ t2.rtoly)
    (hx0 : ref.x.getD (findBracket ref.x xt) 0 ≤ xt)
    (hx1 : xt ≤ ref.x.getD (findBracket ref.x xt + 1) 0)
    (hv : sampleValid
        (interpBound ref.x (calculateLower ref t1).y (findBracket ref.x xt) xt)
        (interpBound ref.x (calculateUpper ref t1).y (findBracket ref.x xt) xt)
        yt = true) :
    sampleValid
        (interpBound ref.x (calculateLower ref t2).y (findBracket ref.x xt) xt)
        (interpBound ref.x (calculateUpper ref t2).y (findBracket ref.x xt) xt)
        yt = true := by
  have hL : interpBound ref.x (calculateLower ref t2).y (findBracket ref.x xt) xt
      ≤ interpBound ref.x (calculateLower ref t1).y (findBracket ref.x xt) xt :=
    interpBound_lower_mono ref.x ref.y t1 t2 h2 h4 (findBracket ref.x xt) xt hx0 hx1
  have hU : interpBound ref.x (calculateUpper ref t1).y (findBracket ref.x xt) xt
      ≤ interpBound ref.x (calculateUpper ref t2).y (findBracket ref.x xt) xt :=
    interpBound_upper_mono ref.x ref.y t1 t2 h2 h4 (findBracket ref.x xt) xt hx0 hx1
  rw [sampleValid_eq_true_iff] at hv ⊢
  exact ⟨valid_lower_mono _ _ _ hL hv.1, valid_upper_mono _ _ _ hU hv.2⟩

/-- Witness for C5 at a concrete sample, zero tolerances widened to an
absolute y-tolerance of 1. -/
theorem tolerance_widening_monotone_witness :
    sampleValid
        (interpBound [0, 1] (calculateLower ⟨[0, 1], [0, 0]⟩ ⟨0, 1, 0, 0⟩).y
          (findBracket [0, 1] (1 / 2)) (1 / 2))
        (interpBound [0, 1] (calculateUpper ⟨[0, 1], [0, 0]⟩ ⟨0, 1, 0, 0⟩).y
          (findBracket [0, 1] (1 / 2)) (1 / 2))
        0 = true :=
  tolerance_widening_monotone ⟨[0, 1], [0, 0]⟩ ⟨0, 0, 0, 0⟩ ⟨0, 1, 0, 0⟩ (1 / 2) 0
    (by norm_num) (by norm_num) (by norm_num) (by norm_num)
    (by norm_num [findBracket, List.takeWhile])
    (by norm_num [findBracket, List.takeWhile])
    (by norm_num [sampleValid, interpBound, calculateLower, calculateUpper, wy, equ,
      tol10, findBracket, List.takeWhile])

/-- C8 (counterexample): `writeToFile` prints `%lf` values rounded to six
fractional digits, so the written row can differ from the unrounded
sample: at `y = 1e-7` the file records `0`. -/
theorem writeToFile_not_unrounded :
    (writeToFile ⟨[0], [1 / 10000000]⟩).rows
      ≠ Curve.samples ⟨[0], [1 / 10000000]⟩ := by
  norm_num [writeToFile, fmtLf, Curve.samples, round_eq, Prod.ext_iff]

/-- C8 (amended): the CSV artifact is the header `x,y` followed by exactly
one row per sample, each coordinate printed as its `%lf` value, i.e.
rounded to six fractional decimal digits rather than unrounded. -/
theorem writeToFile_format (d : Curve) (hlen : d.y.length = d.x.length) :
    (writeToFile d).header = "x,y"
    ∧ (writeToFile d).rows.length = d.n
    ∧ ∀ i, i < d.n →
        (writeToFile d).rows.getD i (0, 0)
          = (fmtLf (d.x.getD i 0), fmtLf (d.y.getD i 0)) := by
  refine ⟨rfl, ?_, ?_⟩
  · simp [writeToFile, Curve.samples, Curve.n, List.length_zip, hlen]
  · intro i hi
    have hix : i < d.x.length := hi
    have hiy : i < d.y.length := by rw [hlen]; exact hi
    have hiz : i < (d.x.zip d.y).length := by
      rw [List.length_zip]
      exact lt_min hix hiy
    rw [show (writeToFile d).rows = (d.x.zip d.y).map (fun p => (fmtLf p.1, fmtLf p.2))
      from rfl]
    rw [List.getD_eq_getElem _ _ (by simpa using hiz), List.getElem_map]
    rw [List.getD_eq_getElem _ _ hix, List.getD_eq_getElem _ _ hiy]
    simp [List.getElem_zip]

/-- Witness for C8 (amended) at a one-sample curve. -/
theorem writeToFile_format_witness :
    (writeToFile ⟨[1], [2]⟩).rows.length = Curve.n ⟨[1], [2]⟩ :=
  (writeToFile_format ⟨[1], [2]⟩ rfl).2.1

end Funnel

namespace Funnel

/-- C4 (counterexample): with all four tolerances zero, a test curve that
deviates from the reference by `1e-11 < 1e-10` at its second sample is
still accepted with an empty error report, because the classification
itself compares with the `1e-10` slack of `equ`. -/
theorem zero_tolerance_counterexample :
    compareAndReport ⟨[0, 1], [0, 0]⟩ ⟨[0, 1], [0, 1 / 100000000000]⟩ ⟨0, 0, 0, 0⟩
      = Except.ok ⟨[], []⟩
    ∧ (⟨[0, 1], [0, 1 / 100000000000]⟩ : Curve) ≠ ⟨[0, 1], [0, 0]⟩ := by
  constructor
  · have habs : |(1 : ℚ) / 100000000000| = 1 / 100000000000 := abs_of_pos (by norm_num)
    norm_num [compareAndReport, validate, validateSamples, calculateLower, calculateUpper,
      wx, wy, equ, tol10, domainCovered, Curve.samples, Curve.n, sampleValid, interpBound,
      findBracket, signedDist, List.takeWhile, habs]
  · intro hcontra
    rw [Curve.mk.injEq] at hcontra
    norm_num at hcontra

/-- C4 (amended): with all four tolerances zero, a test curve identical to
the reference passes with an empty error report, and any test sample whose
ordinate deviates from the reference interpolated at its abscissa by at
least the fixed `1e-10` comparison tolerance produces a violation
(deviations below `1e-10` are absorbed by the `equ` comparison). -/
theorem zero_tolerance_validation (ref : Curve)
    (hsort : ref.x.Pairwise (· < ·)) (hn : 1 ≤ ref.n) :
    compareAndReport ref ref ⟨0, 0, 0, 0⟩ = Except.ok ⟨[], []⟩
    ∧ ∀ test rep xt yt, (xt, yt) ∈ test.samples →
        tol10 ≤ |yt - interpBound ref.x ref.y (findBracket ref.x xt) xt| →
        compareAndReport ref test ⟨0, 0, 0, 0⟩ = Except.ok rep →
        rep.original ≠ [] := by
  have hL := calculateLower_zero ref
  have hU := calculateUpper_zero ref
  have hne : (ref.n == 0) = false := by
    simp only [beq_eq_false_iff_ne, ne_eq]
    omega
  constructor
  · have horig : (validateSamples ref.x ref.y ref.y ref.samples).original = [] := by
      rw [validateSamples_original, List.filter_eq_nil_iff]
      intro p hp
      obtain ⟨j, hjx, _hjy, hp1, hp2⟩ := mem_zip_getD ref.x ref.y p hp
      have hinterp : interpBound ref.x ref.y (findBracket ref.x p.1) p.1
          = ref.y.getD j 0 := by
        rw [hp1]
        exact interp_getD_self ref.x ref.y hsort j hjx
      have hvalid : sampleValid (interpBound ref.x ref.y (findBracket ref.x p.1) p.1)
          (interpBound ref.x ref.y (findBracket ref.x p.1) p.1) p.2 = true := by
        rw [hinterp, hp2, sampleValid_eq_true_iff]
        exact ⟨Or.inl le_rfl, Or.inl le_rfl⟩
      simp [violates, hvalid]
    have hdiff : (validateSamples ref.x ref.y ref.y ref.samples).diff = [] := by
      have hfil : ref.samples.filter (violates ref.x ref.y ref.y) = [] := by
        rw [← validateSamples_original]
        exact horig
      rw [validateSamples_diff, hfil]
      rfl
    have hrep : validateSamples ref.x ref.y ref.y ref.samples = ⟨[], []⟩ := by
      rw [show (⟨[], []⟩ : ErrorReport)
          = ⟨(validateSamples ref.x ref.y ref.y ref.samples).original,
             (validateSamples ref.x ref.y ref.y ref.samples).diff⟩ by rw [horig, hdiff]]
    simp only [compareAndReport, hL, hU, equ_self, hne, validate, domainCovered]
    simp [hrep]
  · intro test rep xt yt hmem hdev hok
    simp only [compareAndReport] at hok
    rw [hL, hU] at hok
    cases hE1 : equ (ref.x.getD 0 0) (test.x.getD 0 0) with
    | false => rw [hE1] at hok; simp at hok
    | true =>
      rw [hE1, if_pos rfl] at hok
      cases hE2 : equ (ref.x.getD (ref.n - 1) 0) (test.x.getD (test.n - 1) 0) with
      | false => rw [hE2] at hok; simp at hok
      | true =>
        rw [hE2, if_pos rfl, hne] at hok
        simp only [Bool.or_self, if_neg Bool.false_ne_true] at hok
        rw [validate] at hok
        rw [hne] at hok
        simp only [Bool.or_self, if_neg Bool.false_ne_true] at hok
        cases hdc : domainCovered ref ref test with
        | false => rw [hdc] at hok; simp at hok
        | true =>
          rw [hdc, if_pos rfl] at hok
          have hrep2 : rep = validateSamples ref.x ref.y ref.y test.samples :=
            Except.ok.inj hok.symm
          have hsv : sampleValid (interpBound ref.x ref.y (findBracket ref.x xt) xt)
              (interpBound ref.x ref.y (findBracket ref.x xt) xt) yt = false := by
            rw [Bool.eq_false_iff]
            intro htrue
            rw [sampleValid_eq_true_iff] at htrue
            rcases htrue with ⟨hlo, hhi⟩
            rcases hhi with h5 | h5
            · rcases hlo with h6 | h6
              · have : yt = interpBound ref.x ref.y (findBracket ref.x xt) xt :=
                  le_antisymm h5 h6
                rw [this, sub_self, abs_zero] at hdev
                linarith [tol10_pos]
              · rw [abs_sub_comm] at h6
                linarith
            · linarith
          have hviol : violates ref.x ref.y ref.y (xt, yt) = true := by
            simp [violates, hsv]
          have hm : (xt, yt) ∈ rep.original := by
            rw [hrep2, validateSamples_original]
            exact List.mem_filter.2 ⟨hmem, hviol⟩
          exact List.ne_nil_of_mem hm

/-- Witness for C4 (amended): a two-sample reference validates against
itself, and a test deviating by 1 at the second sample is reported. -/
theorem zero_tolerance_validation_witness :
    compareAndReport ⟨[0, 1], [0, 0]⟩ ⟨[0, 1], [0, 0]⟩ ⟨0, 0, 0, 0⟩ = Except.ok ⟨[], []⟩
    ∧ ∀ rep, compareAndReport ⟨[0, 1], [0, 0]⟩ ⟨[0, 1], [0, 1]⟩ ⟨0, 0, 0, 0⟩
        = Except.ok rep → rep.original ≠ [] := by
  have h := zero_tolerance_validation ⟨[0, 1], [0, 0]⟩
    (by norm_num [List.pairwise_cons]) (by norm_num [Curve.n])
  refine ⟨h.1, fun rep hok => ?_⟩
  refine h.2 ⟨[0, 1], [0, 1]⟩ rep 1 1 (by norm_num [Curve.samples]) ?_ hok
  norm_num [interpBound, findBracket, List.takeWhile, tol10]

end Funnel

namespace Funnel

/-- C5 (counterexample): widening tolerances is not monotone for samples
outside the reference x-range that the endpoint x half-width admits.  With
reference `[(0,0),(1,1)]`, componentwise tolerances `T1 = (1,0,0,0) ≤
T2 = (1,0,0,10)` and the test sample `(-1/2,-1/2)` (covered by the x
half-width 1), `validate` accepts the sample under `T1` but reports it as
a violation under the wider `T2`: left of the first reference sample the
bounds are extrapolated with a negative interpolation parameter, which
reverses the widening. -/
theorem tolerance_widening_counterexample :
    ((1 : ℚ) ≤ 1 ∧ (0 : ℚ) ≤ 0 ∧ (0 : ℚ) ≤ 0 ∧ (0 : ℚ) ≤ 10)
    ∧ validate [0, 1] (calculateLower ⟨[0, 1], [0, 1]⟩ ⟨1, 0, 0, 0⟩)
        (calculateUpper ⟨[0, 1], [0, 1]⟩ ⟨1, 0, 0, 0⟩) ⟨[-1/2], [-1/2]⟩
        = Except.ok ⟨[], []⟩
    ∧ validate [0, 1] (calculateLower ⟨[0, 1], [0, 1]⟩ ⟨1, 0, 0, 10⟩)
        (calculateUpper ⟨[0, 1], [0, 1]⟩ ⟨1, 0, 0, 10⟩) ⟨[-1/2], [-1/2]⟩
        = Except.ok ⟨[(-1/2, -1/2)], [(-1/2, 5)]⟩
    ∧ sampleValid
        (interpBound [0, 1] (calculateLower ⟨[0, 1], [0, 1]⟩ ⟨1, 0, 0, 0⟩).y
          (findBracket [0, 1] (-1/2)) (-1/2))
        (interpBound [0, 1] (calculateUpper ⟨[0, 1], [0, 1]⟩ ⟨1, 0, 0, 0⟩).y
          (findBracket [0, 1] (-1/2)) (-1/2)) (-1/2) = true
    ∧ sampleValid
        (interpBound [0, 1] (calculateLower ⟨[0, 1], [0, 1]⟩ ⟨1, 0, 0, 10⟩).y
          (findBracket [0, 1] (-1/2)) (-1/2))
        (interpBound [0, 1] (calculateUpper ⟨[0, 1], [0, 1]⟩ ⟨1, 0, 0, 10⟩).y
          (findBracket [0, 1] (-1/2)) (-1/2)) (-1/2) = false := by
  refine ⟨by norm_num, ?_, ?_, ?_, ?_⟩ <;>
    norm_num [validate, validateSamples, calculateLower, calculateUpper, wx, wy, equ, tol10,
      domainCovered, Curve.samples, Curve.n, sampleValid, interpBound, findBracket,
      signedDist, List.takeWhile]

end Funnel
